import Mathlib

/-!
Verification development for the `fisheye` package (`src/fisheye/core.py`),
a wrapper around the OpenCV fisheye calibration code.

The embedding is shallow: the wrapper's own control flow (the detection
loop, accumulation, buffer setup, in-place model update, argument passing,
serialization of the model object) is translated directly from the source.
The external OpenCV routines (`imread`, `cvtColor`, `findChessboardCorners`,
`fisheye.calibrate`, `initUndistortRectifyMap`, `remap`) are an abstract
oracle structure `CV`: the theorems quantify over it, adding only the
hypotheses about the library that a given property needs.  Scalars are `ℚ`
(the wrapper performs no floating-point arithmetic of its own: it only
creates zero buffers, copies, and passes values through).  Fallible steps
(`NameError` on an unbound `gray`, OpenCV assertion failures) are `Except`.
-/

namespace Fisheye

/-- A 2-D image point (sub-pixel coordinates). -/
abbrev Pt2 : Type := ℚ × ℚ

/-- A 3-D object point. -/
abbrev Pt3 : Type := ℚ × ℚ × ℚ

/-- A pose vector (`np.zeros((1, 1, 3))` buffers hold one 3-vector). -/
abbrev Pose : Type := ℚ × ℚ × ℚ

/-- A numpy 2-D array of scalars, as a list of rows. -/
abbrev Mat : Type := List (List ℚ)

/-- `np.zeros((r, c))`. -/
def zerosMat (r c : Nat) : Mat :=
  List.replicate r (List.replicate c (0 : ℚ))

/-- `np.eye(3)`: the 3x3 identity, the default rotation in `undistort`. -/
def eye3 : Mat := [[1, 0, 0], [0, 1, 0], [0, 0, 1]]

/-- The all-zero pose buffer `np.zeros((1, 1, 3))`. -/
def zeroPose : Pose := ((0 : ℚ), (0 : ℚ), (0 : ℚ))

/-- A decoded pixel buffer: `shape` is `(rows, cols)` in numpy order. -/
structure Image where
  rows : Nat
  cols : Nat
  data : List Nat
  deriving DecidableEq, Repr

/-- `img.shape[:2]` in numpy order, i.e. `(rows, cols)`. -/
def Image.shape (im : Image) : Nat × Nat := (im.rows, im.cols)

/-- `gray.shape[::-1]`: the reversed pixel shape `(cols, rows)`. -/
def Image.revShape (im : Image) : Nat × Nat := (im.cols, im.rows)

/-- A remap table produced by `initUndistortRectifyMap` (opaque pixel data). -/
abbrev RemapTable : Type := Image

/-- OpenCV termination criteria `(type, maxCount, epsilon)`. -/
abbrev Criteria : Type := Nat × Nat × ℚ

/-- `cv2.TERM_CRITERIA_EPS + cv2.TERM_CRITERIA_MAX_ITER = 2 + 1`. -/
def termCriteriaEpsMaxIter : Nat := 3

/-- `cv2.CALIB_CB_ADAPTIVE_THRESH + cv2.CALIB_CB_FAST_CHECK +
cv2.CALIB_CB_NORMALIZE_IMAGE = 1 + 8 + 2`. -/
def findChessboardFlags : Nat := 11

/-- `cv2.fisheye.CALIB_RECOMPUTE_EXTRINSIC + cv2.fisheye.CALIB_CHECK_COND +
cv2.fisheye.CALIB_FIX_SKEW = 2 + 4 + 8`. -/
def fisheyeCalibFlags : Nat := 14

/-- The result quintuple of `FishEye.calibrate`:
`(rms, K, D, rvecs, tvecs)`. -/
abbrev CalibResult : Type := ℚ × Mat × Mat × List Pose × List Pose

/-- The abstract interface to the external OpenCV library, covering exactly
the calls the wrapper makes.  `subpixStep`/`subpixMove` factor
`cv2.cornerSubPix`: one local gradient-search adjustment of a single corner
within the given search window, and the movement metric the termination
criteria are checked against. -/
structure CV where
  imread : String → Option Image
  cvtColor : Image → Image
  findChessboardCorners : Image → Nat × Nat → Nat → Option (List Pt2)
  subpixStep : Image → Nat × Nat → Pt2 → Pt2
  subpixMove : Pt2 → Pt2 → ℚ
  fisheyeCalib : List (List Pt3) → List (List Pt2) → Nat × Nat → Mat → Mat →
    List Pose → List Pose → Nat → Criteria →
    Except String CalibResult
  initUndistortRectifyMap : Mat → Mat → Mat → Mat → Nat × Nat →
    RemapTable × RemapTable
  remap : Image → RemapTable → RemapTable → Image

/-- The `FishEye` object state: grid geometry, verbosity flag, and the
stored intrinsic matrix `_K` and distortion coefficients `_D`. -/
structure FishEye where
  nx : Nat
  ny : Nat
  verbose : Bool
  K : Mat
  D : Mat
  deriving DecidableEq, Repr

/-- `FishEye.__init__`: stores the grid geometry and zero-initializes
`_K` (3x3) and `_D` (4x1). -/
def FishEye.init (nx ny : Nat) (verbose : Bool) : FishEye :=
  { nx := nx, ny := ny, verbose := verbose, K := zerosMat 3 3, D := zerosMat 4 1 }

/-- The synthetic 3-D chessboard model:
`chessboard_model = np.zeros((1, nx*ny, 3)); chessboard_model[0, :, :2] =
np.mgrid[0:nx, 0:ny].T.reshape(-1, 2)`.  The transpose of `mgrid` followed
by the C-order reshape enumerates `(i, j)` with `j` (the `ny` axis) as the
outer loop, each point carried at zero depth. -/
def chessboardModel (nx ny : Nat) : List Pt3 :=
  (List.range ny).flatMap (fun (j : Nat) =>
    (List.range nx).map (fun (i : Nat) => ((i : ℚ), (j : ℚ), (0 : ℚ))))

/-- `[chessboard_model]*N_OK`: the object-point list handed to
`cv2.fisheye.calibrate`, one copy of the model per accumulated image. -/
def calibObjPoints (nx ny n : Nat) : List (List Pt3) :=
  List.replicate n (chessboardModel nx ny)

/-- The `rvecs`/`tvecs` buffers: `[np.zeros((1, 1, 3)) for i in range(N_OK)]`. -/
def zeroPoses (n : Nat) : List Pose := List.replicate n zeroPose

/-- The iteration pattern of `cv2.cornerSubPix` on one corner under
criteria `(EPS + MAX_ITER, fuel, eps)`: repeatedly apply the local
adjustment `step`, stopping as soon as the corner moves by less than `eps`
or after `fuel` iterations.  Returns the refined corner, the number of
iterations performed, and whether the epsilon criterion fired. -/
def refineLoop (step : Pt2 → Pt2) (move : Pt2 → Pt2 → ℚ) (eps : ℚ) :
    Nat → Pt2 → Pt2 × Nat × Bool
  | 0, p => (p, 0, false)
  | Nat.succ n, p =>
    let q := step p
    if move p q < eps then (q, 1, true)
    else
      let r := refineLoop step move eps n q
      (r.1, r.2.1 + 1, r.2.2)

/-- `cv2.cornerSubPix(gray, pts, win, (-1,-1), criteria)`: each corner is
refined independently by the criteria-driven local search, so the output
is a map over the input corners. -/
def cornerSubPix (cv : CV) (gray : Image) (pts : List Pt2)
    (win : Nat × Nat) (crit : Criteria) : List Pt2 :=
  pts.map (fun p => (refineLoop (cv.subpixStep gray win) cv.subpixMove crit.2.2 crit.2.1 p).1)

/-- `subpix_criteria = (cv2.TERM_CRITERIA_EPS+cv2.TERM_CRITERIA_MAX_ITER, 30, 0.1)`. -/
def subpixCriteria : Criteria := (termCriteriaEpsMaxIter, 30, mkRat 1 10)

/-- One iteration of the detection loop in `FishEye.calibrate`, then the
rest of the paths.  State: the accumulated `chess_2Dpts_list` and the
current value of the loop-local `gray` (None before the first iteration:
the Python name is unbound then).  `cv2.imread` yields `None` on a bad
path and the subsequent `cv2.cvtColor(None, ...)` raises; a successful
detection appends the sub-pixel-refined corners; a failed detection
appends nothing and the loop continues. -/
def calibScan (cv : CV) (nx ny : Nat) :
    List String → List (List Pt2) × Option Image →
    Except String (List (List Pt2) × Option Image)
  | [], acc => .ok acc
  | f :: fs, acc =>
    match cv.imread f with
    | none => .error "cvtColor: bad argument"
    | some img =>
      let gray := cv.cvtColor img
      match cv.findChessboardCorners gray (nx, ny) findChessboardFlags with
      | some cb =>
        calibScan cv nx ny fs
          (acc.1 ++ [cornerSubPix cv gray cb (11, 11) subpixCriteria], some gray)
      | none => calibScan cv nx ny fs (acc.1, some gray)

/-- The tail of `FishEye.calibrate` after the detection loop: builds the
object-point and pose buffers, selects the `K`/`D` buffers (the stored
arrays themselves when `update_model`, fresh copies otherwise), invokes the
optimizer with `gray.shape[::-1]`, and returns the quintuple together with
the resulting model state.  With no loop iteration binding `gray`
(`img_paths` empty) the Python `gray.shape` raises `NameError`.

Of the optimizer's five return values only `rms` is kept
(`rms, _, _, _, _ = cv2.fisheye.calibrate(...)`).  The returned `K`/`D`
are the local buffers, which the binding does write in place (their 3x3
and 4x1 float64 shapes match), so they hold the optimizer's final values.
The returned `rvecs`/`tvecs` are the zero `(1, 1, 3)` buffer lists of
lines 127-128, which `fisheye::calibrate` does NOT fill in place (it
reallocates each element to 3x1 CV_64F, severing the share with the numpy
arrays), so the call hands back zero poses and the optimizer's pose
output is discarded. -/
def calibFinish (cv : CV) (m : FishEye) (updateModel : Bool)
    (maxIter : Nat) (eps : ℚ) :
    List (List Pt2) × Option Image → Except String (CalibResult × FishEye)
  | (_, none) => .error "NameError: name gray is not defined"
  | (pts, some gray) =>
    match cv.fisheyeCalib (calibObjPoints m.nx m.ny pts.length) pts
        gray.revShape m.K m.D (zeroPoses pts.length) (zeroPoses pts.length)
        fisheyeCalibFlags (termCriteriaEpsMaxIter, maxIter, eps) with
    | .error e => .error e
    | .ok res =>
      .ok ((res.1, res.2.1, res.2.2.1, zeroPoses pts.length, zeroPoses pts.length),
        if updateModel then { m with K := res.2.1, D := res.2.2.1 } else m)

/-- `FishEye.calibrate(img_paths, update_model, max_iter, eps)`: the
detection loop followed by the optimizer invocation.  Returns the
`(rms, K, D, rvecs, tvecs)` quintuple and the model state after the call
(the stored `_K`/`_D` are the very buffers the optimizer writes into when
`update_model` is set; copies shield them otherwise; the returned
`rvecs`/`tvecs` are the unwritten zero buffers). -/
def FishEye.calibrate (cv : CV) (m : FishEye) (imgPaths : List String)
    (updateModel : Bool) (maxIter : Nat) (eps : ℚ) :
    Except String (CalibResult × FishEye) :=
  match calibScan cv m.nx m.ny imgPaths ([], none) with
  | .error e => .error e
  | .ok acc => calibFinish cv m updateModel maxIter eps acc

/-- `FishEye.undistort(distorted_img, undistorted_size=None, R=np.eye(3),
K=None)`: resolves the defaults (`K` to the stored `_K`,
`undistorted_size` to `distorted_img.shape[:2]`), builds the remap tables
from the stored model, and resamples.  The pair returned carries the model
state after the call: the method assigns no attribute, so it is the input
model unchanged. -/
def FishEye.undistort (cv : CV) (m : FishEye) (distortedImg : Image)
    (undistortedSize : Option (Nat × Nat)) (R : Mat) (K : Option Mat) :
    Image × FishEye :=
  let Kv := K.getD m.K
  let sz := undistortedSize.getD distortedImg.shape
  let maps := cv.initUndistortRectifyMap m.K m.D R Kv sz
  (cv.remap distortedImg maps.1 maps.2, m)

/-- The all-defaults call `model.undistort(img)`. -/
def FishEye.undistortDefault (cv : CV) (m : FishEye) (distortedImg : Image) :
    Image × FishEye :=
  FishEye.undistort cv m distortedImg none eye3 none

/-!
`FishEye.save` / `FishEye.load` pickle the whole object
(`pickle.dump(self, f)` / `pickle.load(f)`): an opaque byte stream holding
every field of the instance.  The serialization mechanism itself is the
external library; we model the stream as a flat list of scalars carrying a
length-prefixed encoding of each field, with a decoder that validates what
it reads — faithful to pickle's contract of reconstructing the stored
object exactly.
-/

/-- Decode a natural number from the head of the stream (reject a scalar
that is not a natural). -/
def decodeNat : List ℚ → Option (Nat × List ℚ)
  | [] => none
  | q :: rest =>
    if q.den = 1 ∧ 0 ≤ q.num then some (q.num.toNat, rest) else none

/-- Decode a boolean scalar (1 or 0) from the head of the stream. -/
def decodeBool : List ℚ → Option (Bool × List ℚ)
  | [] => none
  | q :: rest =>
    if q = 1 then some (true, rest)
    else if q = 0 then some (false, rest) else none

/-- Length-prefix a matrix row. -/
def encodeRow (v : List ℚ) : List ℚ := ((v.length : ℚ)) :: v

/-- Decode one length-prefixed row. -/
def decodeRow (l : List ℚ) : Option (List ℚ × List ℚ) :=
  match decodeNat l with
  | none => none
  | some (n, rest) =>
    if n ≤ rest.length then some (rest.take n, rest.drop n) else none

/-- Encode a matrix: row count, then each row length-prefixed. -/
def encodeMat (mt : Mat) : List ℚ :=
  ((mt.length : ℚ)) :: mt.flatMap encodeRow

/-- Decode `n` length-prefixed rows. -/
def decodeRows : Nat → List ℚ → Option (Mat × List ℚ)
  | 0, l => some ([], l)
  | Nat.succ n, l =>
    match decodeRow l with
    | none => none
    | some (r, rest) =>
      match decodeRows n rest with
      | none => none
      | some (rs, rest2) => some (r :: rs, rest2)

/-- Decode a matrix. -/
def decodeMat (l : List ℚ) : Option (Mat × List ℚ) :=
  match decodeNat l with
  | none => none
  | some (n, rest) => decodeRows n rest

/-- `FishEye.save`: pickle the whole object — every field of the instance
goes into the stream. -/
def FishEye.save (m : FishEye) : List ℚ :=
  ((m.nx : ℚ)) :: ((m.ny : ℚ)) :: (if m.verbose then (1 : ℚ) else 0) ::
    (encodeMat m.K ++ encodeMat m.D)

/-- `FishEye.load` (static): unpickle a previously saved model, rebuilding
the object from the stream. -/
def FishEye.load (l : List ℚ) : Option FishEye :=
  match decodeNat l with
  | none => none
  | some (nx, r1) =>
    match decodeNat r1 with
    | none => none
    | some (ny, r2) =>
      match decodeBool r2 with
      | none => none
      | some (vb, r3) =>
        match decodeMat r3 with
        | none => none
        | some (K, r4) =>
          match decodeMat r4 with
          | none => none
          | some (D, r5) =>
            match r5 with
            | [] => some { nx := nx, ny := ny, verbose := vb, K := K, D := D }
            | _ => none

theorem decodeNat_natCast (n : Nat) (rest : List ℚ) :
    decodeNat (((n : ℚ)) :: rest) = some (n, rest) := by
  simp [decodeNat]

theorem decodeRow_encodeRow (v : List ℚ) (t : List ℚ) :
    decodeRow (encodeRow v ++ t) = some (v, t) := by
  simp [decodeRow, encodeRow, decodeNat_natCast, List.take_append, List.drop_append]

theorem decodeRows_encode (rows : Mat) (t : List ℚ) :
    decodeRows rows.length (rows.flatMap encodeRow ++ t) = some (rows, t) := by
  induction rows with
  | nil => simp [decodeRows]
  | cons r rs ih =>
    simp only [List.flatMap_cons, List.length_cons, List.append_assoc]
    simp [decodeRows, decodeRow_encodeRow, ih]

theorem decodeMat_encodeMat (mt : Mat) (t : List ℚ) :
    decodeMat (encodeMat mt ++ t) = some (mt, t) := by
  simp only [encodeMat, List.cons_append]
  simp [decodeMat, decodeNat_natCast, decodeRows_encode]

theorem decodeBool_encode (b : Bool) (rest : List ℚ) :
    decodeBool ((if b then (1 : ℚ) else 0) :: rest) = some (b, rest) := by
  cases b <;> simp [decodeBool]

/-! Helper lemmas about the sub-pixel refinement loop. -/

theorem refineLoop_iters_le (step : Pt2 → Pt2) (move : Pt2 → Pt2 → ℚ) (eps : ℚ) :
    ∀ (n : Nat) (p : Pt2), (refineLoop step move eps n p).2.1 ≤ n := by
  intro n
  induction n with
  | zero => intro p; simp [refineLoop]
  | succ k ih =>
    intro p
    simp only [refineLoop]
    split
    · simp
    · simpa using ih (step p)

theorem refineLoop_iters_of_not_eps (step : Pt2 → Pt2) (move : Pt2 → Pt2 → ℚ)
    (eps : ℚ) : ∀ (n : Nat) (p : Pt2),
    (refineLoop step move eps n p).2.2 = false →
    (refineLoop step move eps n p).2.1 = n := by
  intro n
  induction n with
  | zero => intro p _; simp [refineLoop]
  | succ k ih =>
    intro p h
    simp only [refineLoop] at h ⊢
    split
    · rename_i hlt
      simp only [refineLoop, hlt, if_pos] at h
      simp at h
    · rename_i hlt
      simp only [refineLoop, hlt, if_neg] at h
      simpa using ih (step p) (by simpa using h)

theorem refineLoop_eps_stop (step : Pt2 → Pt2) (move : Pt2 → Pt2 → ℚ)
    (eps : ℚ) : ∀ (n : Nat) (p : Pt2),
    (refineLoop step move eps n p).2.2 = true →
    ∃ r, move r (step r) < eps ∧ (refineLoop step move eps n p).1 = step r := by
  intro n
  induction n with
  | zero => intro p h; simp [refineLoop] at h
  | succ k ih =>
    intro p h
    simp only [refineLoop] at h ⊢
    split
    · rename_i hlt
      exact ⟨p, hlt, rfl⟩
    · rename_i hlt
      simp only [refineLoop, hlt, if_neg] at h
      obtain ⟨r, h1, h2⟩ := ih (step p) (by simpa using h)
      exact ⟨r, h1, h2⟩

/-- Inversion of a successful `FishEye.calibrate` call: the scan succeeded
with at least one bound `gray`, the optimizer oracle was invoked at the
arguments the wrapper builds and produced some quintuple `r`, the value
returned by the wrapper keeps `r`'s rms and `K`/`D` but replaces the
poses by the unwritten zero buffers, and the resulting model state is the
in-place-updated or untouched original according to `updateModel`. -/
theorem calibrate_ok_inv (cv : CV) (m : FishEye) (paths : List String)
    (um : Bool) (mi : Nat) (e : ℚ) (res : CalibResult) (m2 : FishEye)
    (h : FishEye.calibrate cv m paths um mi e = .ok (res, m2)) :
    ∃ pts gray r,
      calibScan cv m.nx m.ny paths ([], none) = .ok (pts, some gray) ∧
      cv.fisheyeCalib (calibObjPoints m.nx m.ny pts.length) pts gray.revShape
        m.K m.D (zeroPoses pts.length) (zeroPoses pts.length)
        fisheyeCalibFlags (termCriteriaEpsMaxIter, mi, e) = .ok r ∧
      res = (r.1, r.2.1, r.2.2.1, zeroPoses pts.length, zeroPoses pts.length) ∧
      m2 = if um then { m with K := r.2.1, D := r.2.2.1 } else m := by
  unfold FishEye.calibrate at h
  cases hscan : calibScan cv m.nx m.ny paths ([], none) with
  | error e2 => rw [hscan] at h; cases h
  | ok acc =>
    rw [hscan] at h
    obtain ⟨pts, g⟩ := acc
    cases g with
    | none => simp [calibFinish] at h
    | some gray =>
      simp only [calibFinish] at h
      cases hc : cv.fisheyeCalib (calibObjPoints m.nx m.ny pts.length) pts
          gray.revShape m.K m.D (zeroPoses pts.length) (zeroPoses pts.length)
          fisheyeCalibFlags (termCriteriaEpsMaxIter, mi, e) with
      | error e2 => rw [hc] at h; cases h
      | ok r =>
        rw [hc] at h
        simp only [Except.ok.injEq, Prod.mk.injEq] at h
        obtain ⟨h1, h2⟩ := h
        exact ⟨pts, gray, r, rfl, hc, h1.symm, h2.symm⟩

/-! A concrete instantiation of the external-library oracle, used to
exercise the theorems on closed inputs. -/

/-- A 2x3 test image on which the test oracle detects a chessboard. -/
def imgA : Image := { rows := 2, cols := 3, data := [1, 2, 3, 4, 5, 6] }

/-- A 9x1 test image on which the test oracle fails detection. -/
def imgB : Image := { rows := 9, cols := 1, data := [0] }

/-- A concrete external-library oracle. -/
def cvTest : CV where
  imread := fun s => if s = "a" then some imgA else if s = "b" then some imgB else none
  cvtColor := fun im => im
  findChessboardCorners := fun g _ _ =>
    if g.rows = 2 then some [((1 : ℚ), (1 : ℚ))] else none
  subpixStep := fun _ _ p => p
  subpixMove := fun _ _ => 0
  fisheyeCalib := fun obj _ _ K D _ _ _ _ =>
    if obj.isEmpty then .error "CV Assert objectPoints not empty"
    else .ok (1, K, D, obj.map (fun _ => zeroPose), obj.map (fun _ => zeroPose))
  initUndistortRectifyMap := fun _ _ _ _ sz =>
    ({ rows := sz.1, cols := sz.2, data := [] }, { rows := sz.2, cols := sz.1, data := [] })
  remap := fun im _ _ => im

/-- A concrete model: a fresh 1x1-grid `FishEye`. -/
def mTest : FishEye := FishEye.init 1 1 false

/-- The quintuple `calibrate` returns on `cvTest`, `mTest`, one good image. -/
def resTest : CalibResult :=
  (1, zerosMat 3 3, zerosMat 4 1, [zeroPose], [zeroPose])

/-- C1: a `calibrate` call with `update_model=False` computes against
copies and leaves the model's stored `K` and `D` (indeed the whole model
state) unchanged; with `update_model=True` the stored `K` and `D` end up
updated in place to the calibration's output `K` and `D`, the grid
geometry being untouched. -/
theorem calibrate_update_model_mode (cv : CV) (m : FishEye)
    (paths : List String) (mi : Nat) (e : ℚ) (res : CalibResult)
    (m2 : FishEye) :
    (FishEye.calibrate cv m paths false mi e = .ok (res, m2) → m2 = m) ∧
    (FishEye.calibrate cv m paths true mi e = .ok (res, m2) →
      m2.K = res.2.1 ∧ m2.D = res.2.2.1 ∧ m2.nx = m.nx ∧ m2.ny = m.ny) := by
  constructor
  · intro h
    obtain ⟨pts, gray, r, _, _, _, hm⟩ :=
      calibrate_ok_inv cv m paths false mi e res m2 h
    simpa using hm
  · intro h
    obtain ⟨pts, gray, r, _, _, hres, hm⟩ :=
      calibrate_ok_inv cv m paths true mi e res m2 h
    subst hres
    subst hm
    simp

/-- C1 witness: on a concrete oracle, model and image list, the
non-mutating call leaves the model intact and the mutating call installs
the optimizer's `K`/`D`. -/
theorem calibrate_update_model_mode_witness :
    mTest = mTest ∧
    (mTest.K = resTest.2.1 ∧ mTest.D = resTest.2.2.1 ∧
      mTest.nx = mTest.nx ∧ mTest.ny = mTest.ny) :=
  ⟨(calibrate_update_model_mode cvTest mTest ["a"] 30 (mkRat 1 1000000)
      resTest mTest).1 rfl,
   (calibrate_update_model_mode cvTest mTest ["a"] 30 (mkRat 1 1000000)
      resTest mTest).2 rfl⟩

/-- A concrete external-library oracle whose optimizer reports nonzero
pose vectors, exhibiting that the wrapper does not pass them on. -/
def cvPose : CV :=
  { cvTest with
    fisheyeCalib := fun obj _ _ K D _ _ _ _ =>
      if obj.isEmpty then .error "CV Assert objectPoints not empty"
      else .ok (1, K, D, obj.map (fun _ => ((1 : ℚ), 2, 3)),
        obj.map (fun _ => ((1 : ℚ), 2, 3))) }

/-- C2 counterexample: with an optimizer reporting the nonzero pose
`(1, 2, 3)` for its one image, the wrapper still returns the zero pose
buffers — the returned rvecs/tvecs are not the pose vectors produced by
the optimizer. -/
theorem calibrate_poses_not_optimizer_counterexample :
    FishEye.calibrate cvPose mTest ["a"] true 30 (mkRat 1 1000000) =
      .ok ((1, zerosMat 3 3, zerosMat 4 1, zeroPoses 1, zeroPoses 1), mTest) ∧
    cvPose.fisheyeCalib (calibObjPoints mTest.nx mTest.ny 1)
      [[((1 : ℚ), (1 : ℚ))]] imgA.revShape mTest.K mTest.D (zeroPoses 1)
      (zeroPoses 1) fisheyeCalibFlags
      (termCriteriaEpsMaxIter, 30, mkRat 1 1000000) =
      .ok (1, zerosMat 3 3, zerosMat 4 1, [((1 : ℚ), 2, 3)],
        [((1 : ℚ), 2, 3)]) ∧
    zeroPoses 1 ≠ [((1 : ℚ), 2, 3)] :=
  ⟨rfl, rfl, by decide⟩

/-- C2 (amended): a successful `calibrate` returns the RMS reprojection
error and the final `K` and `D` the optimizer produced at the accumulated
data, together with one rvec and one tvec per successfully-detected image
— these pose lists being the zero-initialized buffers, the optimizer's
returned pose vectors having been discarded. -/
theorem calibrate_returns_rms_K_D_zero_poses (cv : CV) (m : FishEye)
    (paths : List String) (um : Bool) (mi : Nat) (e : ℚ)
    (rms : ℚ) (K D : Mat) (rv tv : List Pose) (m2 : FishEye)
    (h : FishEye.calibrate cv m paths um mi e = .ok ((rms, K, D, rv, tv), m2)) :
    ∃ pts gray r,
      calibScan cv m.nx m.ny paths ([], none) = .ok (pts, some gray) ∧
      cv.fisheyeCalib (calibObjPoints m.nx m.ny pts.length) pts gray.revShape
        m.K m.D (zeroPoses pts.length) (zeroPoses pts.length)
        fisheyeCalibFlags (termCriteriaEpsMaxIter, mi, e) = .ok r ∧
      rms = r.1 ∧ K = r.2.1 ∧ D = r.2.2.1 ∧
      rv = zeroPoses pts.length ∧ tv = zeroPoses pts.length ∧
      rv.length = pts.length ∧ tv.length = pts.length := by
  obtain ⟨pts, gray, r, h1, h2, hres, _⟩ :=
    calibrate_ok_inv cv m paths um mi e (rms, K, D, rv, tv) m2 h
  simp only [Prod.mk.injEq] at hres
  obtain ⟨e1, e2, e3, e4, e5⟩ := hres
  refine ⟨pts, gray, r, h1, h2, e1, e2, e3, e4, e5, ?_, ?_⟩
  · rw [e4]; simp [zeroPoses]
  · rw [e5]; simp [zeroPoses]

/-- C2 witness: on the concrete oracle and one detected image, the call
returns the optimizer's rms and `K`/`D` with the single zero rvec/tvec
pair. -/
theorem calibrate_returns_rms_K_D_zero_poses_witness :
    ∃ pts gray r,
      calibScan cvTest mTest.nx mTest.ny ["a"] ([], none) = .ok (pts, some gray) ∧
      cvTest.fisheyeCalib (calibObjPoints mTest.nx mTest.ny pts.length) pts
        gray.revShape mTest.K mTest.D (zeroPoses pts.length)
        (zeroPoses pts.length) fisheyeCalibFlags
        (termCriteriaEpsMaxIter, 30, mkRat 1 1000000) = .ok r ∧
      (1 : ℚ) = r.1 ∧ zerosMat 3 3 = r.2.1 ∧ zerosMat 4 1 = r.2.2.1 ∧
      [zeroPose] = zeroPoses pts.length ∧ [zeroPose] = zeroPoses pts.length ∧
      [zeroPose].length = pts.length ∧ [zeroPose].length = pts.length :=
  calibrate_returns_rms_K_D_zero_poses cvTest mTest ["a"] true 30
    (mkRat 1 1000000) 1 (zerosMat 3 3) (zerosMat 4 1) [zeroPose] [zeroPose]
    mTest rfl

/-- C3: when zero images survive chessboard detection (the empty
`img_paths` list included), `calibrate` ends in a hard failure — the
unbound `gray` for an empty list, or the optimizer's rejection of empty
point lists — never a silently returned degenerate model. -/
theorem calibrate_zero_detections_fails (cv : CV) (m : FishEye)
    (paths : List String) (um : Bool) (mi : Nat) (e : ℚ)
    (hassert : ∀ ipts sz K0 D0 r0 t0 fl cr,
      ∃ err, cv.fisheyeCalib [] ipts sz K0 D0 r0 t0 fl cr = .error err)
    (hzero : ∀ pts g, calibScan cv m.nx m.ny paths ([], none) = .ok (pts, g) →
      pts = []) :
    ∃ err, FishEye.calibrate cv m paths um mi e = .error err := by
  unfold FishEye.calibrate
  cases hscan : calibScan cv m.nx m.ny paths ([], none) with
  | error e2 => exact ⟨e2, rfl⟩
  | ok acc =>
    obtain ⟨pts, g⟩ := acc
    have hp : pts = [] := hzero pts g hscan
    subst hp
    cases g with
    | none => exact ⟨_, rfl⟩
    | some gray =>
      obtain ⟨err, herr⟩ := hassert [] gray.revShape m.K m.D (zeroPoses 0)
        (zeroPoses 0) fisheyeCalibFlags (termCriteriaEpsMaxIter, mi, e)
      refine ⟨err, ?_⟩
      simp only [calibFinish, List.length_nil, calibObjPoints,
        List.replicate_zero, herr]

/-- C3 witness: on the concrete oracle (whose optimizer rejects empty
object-point lists, as OpenCV asserts) and an empty image list, the
concrete `calibrate` call fails hard. -/
theorem calibrate_zero_detections_fails_witness :
    ∃ err, FishEye.calibrate cvTest mTest [] true 30 (mkRat 1 1000000) =
      .error err :=
  calibrate_zero_detections_fails cvTest mTest [] true 30 (mkRat 1 1000000)
    (fun _ _ _ _ _ _ _ _ => ⟨"CV Assert objectPoints not empty", rfl⟩)
    (fun pts g h => by
      simp only [calibScan, Except.ok.injEq, Prod.mk.injEq] at h
      exact h.1.symm)

/-- C4: `undistort` is a pure function of the model's stored `(K, D)` and
the supplied parameters — identical calls agree, and the model state after
the call (its stored `K` and `D` included) is the input model unchanged. -/
theorem undistort_pure (cv : CV) (m : FishEye) (img : Image)
    (sz : Option (Nat × Nat)) (R : Mat) (K : Option Mat) :
    FishEye.undistort cv m img sz R K = FishEye.undistort cv m img sz R K ∧
    (FishEye.undistort cv m img sz R K).2 = m ∧
    (FishEye.undistort cv m img sz R K).2.K = m.K ∧
    (FishEye.undistort cv m img sz R K).2.D = m.D :=
  ⟨rfl, rfl, rfl, rfl⟩

/-- C5: the all-defaults `undistort` call resolves its omitted parameters
to the input image's own pixel dimensions as output size, the 3x3 identity
as rotation, and the model's own stored `K` as target intrinsics. -/
theorem undistort_defaults (cv : CV) (m : FishEye) (img : Image) :
    FishEye.undistortDefault cv m img =
      (cv.remap img
        (cv.initUndistortRectifyMap m.K m.D eye3 m.K img.shape).1
        (cv.initUndistortRectifyMap m.K m.D eye3 m.K img.shape).2, m) ∧
    img.shape = (img.rows, img.cols) ∧
    eye3 = [[1, 0, 0], [0, 1, 0], [0, 0, 1]] :=
  ⟨rfl, rfl, rfl⟩

/-- C6: an image whose chessboard detection fails contributes nothing to
the accumulated corner collection, raises nothing, and the loop moves on
to the remaining images (only the loop-local `gray` advances). -/
theorem detection_failure_skips (cv : CV) (nx ny : Nat)
    (pts : List (List Pt2)) (g : Option Image) (f : String)
    (fs : List String) (img : Image)
    (hread : cv.imread f = some img)
    (hfail : cv.findChessboardCorners (cv.cvtColor img) (nx, ny)
      findChessboardFlags = none) :
    calibScan cv nx ny (f :: fs) (pts, g) =
      calibScan cv nx ny fs (pts, some (cv.cvtColor img)) := by
  simp only [calibScan, hread, hfail]

/-- C6 witness: on the concrete oracle, the image failing detection is
skipped and the scan continues past it with the accumulator untouched. -/
theorem detection_failure_skips_witness :
    calibScan cvTest 1 1 ["b"] ([], none) =
      calibScan cvTest 1 1 [] ([], some (cvTest.cvtColor imgB)) :=
  detection_failure_skips cvTest 1 1 [] none "b" [] imgB rfl rfl

theorem flatMap_const_length {α β : Type} (f : α → List β) (c : Nat)
    (hf : ∀ a, (f a).length = c) :
    ∀ l : List α, (l.flatMap f).length = l.length * c := by
  intro l
  induction l with
  | nil => simp
  | cons a t ih => simp [hf, ih, Nat.succ_mul, Nat.add_comm]

theorem chessboardModel_length (nx ny : Nat) :
    (chessboardModel nx ny).length = nx * ny := by
  rw [chessboardModel,
    flatMap_const_length _ nx (fun j => by simp) (List.range ny)]
  simp [Nat.mul_comm]

theorem chessboardModel_mem (nx ny : Nat) (p : Pt3)
    (hp : p ∈ chessboardModel nx ny) :
    ∃ i j : Nat, i < nx ∧ j < ny ∧ p = ((i : ℚ), (j : ℚ), (0 : ℚ)) := by
  rw [chessboardModel, List.mem_flatMap] at hp
  obtain ⟨j, hj, hp⟩ := hp
  rw [List.mem_map] at hp
  obtain ⟨i, hi, hp⟩ := hp
  rw [List.mem_range] at hi hj
  exact ⟨i, j, hi, hj, hp.symm⟩

theorem replicate_get_eq {α : Type} (a : α) :
    ∀ (n k : Nat), k < n → (List.replicate n a).get? k = some a := by
  intro n
  induction n with
  | zero => intro k h; cases h
  | succ j ih =>
    intro k h
    cases k with
    | zero => simp [List.replicate]
    | succ i =>
      simp only [List.replicate, List.get?]
      exact ih i (Nat.lt_of_succ_lt_succ h)

/-- C7: the synthetic chessboard model holds exactly `nx*ny` points, each
at integer grid coordinates with zero depth; the object-point list built
for the optimizer replicates that one constant model once per accumulated
image, so its `k`-th entry is the model itself, and on any successful
`calibrate` call the optimizer receives it at exactly the length of the
accumulated 2-D corner list. -/
theorem chessboard_objpoints_spec (nx ny n k : Nat) (cv : CV) (m : FishEye)
    (paths : List String) (um : Bool) (mi : Nat) (e : ℚ)
    (res : CalibResult) (m2 : FishEye) :
    (chessboardModel nx ny).length = nx * ny ∧
    (∀ p ∈ chessboardModel nx ny,
      ∃ i j : Nat, i < nx ∧ j < ny ∧ p = ((i : ℚ), (j : ℚ), (0 : ℚ))) ∧
    (calibObjPoints nx ny n).length = n ∧
    (k < n → (calibObjPoints nx ny n).get? k = some (chessboardModel nx ny)) ∧
    (FishEye.calibrate cv m paths um mi e = .ok (res, m2) →
      ∃ pts gray r,
        calibScan cv m.nx m.ny paths ([], none) = .ok (pts, some gray) ∧
        cv.fisheyeCalib (calibObjPoints m.nx m.ny pts.length) pts gray.revShape
          m.K m.D (zeroPoses pts.length) (zeroPoses pts.length)
          fisheyeCalibFlags (termCriteriaEpsMaxIter, mi, e) = .ok r ∧
        res = (r.1, r.2.1, r.2.2.1, zeroPoses pts.length,
          zeroPoses pts.length)) := by
  refine ⟨chessboardModel_length nx ny, chessboardModel_mem nx ny, ?_, ?_, ?_⟩
  · simp [calibObjPoints]
  · intro h
    exact replicate_get_eq (chessboardModel nx ny) n k h
  · intro h
    obtain ⟨pts, gray, r, h1, h2, hres, _⟩ :=
      calibrate_ok_inv cv m paths um mi e res m2 h
    exact ⟨pts, gray, r, h1, h2, hres⟩

/-- C7 witness: on a 1x1 grid the model is the single origin point, the
object list of length one holds it at index zero, and the concrete
`calibrate` call hands the optimizer one model copy for its one corner
set. -/
theorem chessboard_objpoints_spec_witness :
    (∃ i j : Nat, i < 1 ∧ j < 1 ∧
      ((0 : ℚ), (0 : ℚ), (0 : ℚ)) = ((i : ℚ), (j : ℚ), (0 : ℚ))) ∧
    (calibObjPoints 1 1 1).get? 0 = some (chessboardModel 1 1) ∧
    (∃ pts gray r,
      calibScan cvTest mTest.nx mTest.ny ["a"] ([], none) = .ok (pts, some gray) ∧
      cvTest.fisheyeCalib (calibObjPoints mTest.nx mTest.ny pts.length) pts
        gray.revShape mTest.K mTest.D (zeroPoses pts.length)
        (zeroPoses pts.length) fisheyeCalibFlags
        (termCriteriaEpsMaxIter, 30, mkRat 1 1000000) = .ok r ∧
      resTest = (r.1, r.2.1, r.2.2.1, zeroPoses pts.length,
        zeroPoses pts.length)) :=
  ⟨(chessboard_objpoints_spec 1 1 1 0 cvTest mTest ["a"] true 30
      (mkRat 1 1000000) resTest mTest).2.1 ((0 : ℚ), (0 : ℚ), (0 : ℚ))
      (by decide),
   (chessboard_objpoints_spec 1 1 1 0 cvTest mTest ["a"] true 30
      (mkRat 1 1000000) resTest mTest).2.2.2.1 (by decide),
   (chessboard_objpoints_spec 1 1 1 0 cvTest mTest ["a"] true 30
      (mkRat 1 1000000) resTest mTest).2.2.2.2 rfl⟩

/-- C8: sub-pixel refinement as invoked by `calibrate` runs with the 11x11
search window and criteria `(30, 0.1)`; it refines corners one by one in
order (output aligned index-by-index with the input, same count), performs
at most 30 iterations per corner, performs exactly 30 when the movement
threshold never fires, and otherwise stops at a step that moved the corner
by less than 0.1. -/
theorem cornerSubPix_criteria_spec (cv : CV) (gray : Image)
    (pts : List Pt2) :
    (cornerSubPix cv gray pts (11, 11) subpixCriteria).length = pts.length ∧
    (∀ k, (cornerSubPix cv gray pts (11, 11) subpixCriteria).get? k =
      (pts.get? k).map (fun p =>
        (refineLoop (cv.subpixStep gray (11, 11)) cv.subpixMove
          (mkRat 1 10) 30 p).1)) ∧
    (∀ p, (refineLoop (cv.subpixStep gray (11, 11)) cv.subpixMove
      (mkRat 1 10) 30 p).2.1 ≤ 30) ∧
    (∀ p, (refineLoop (cv.subpixStep gray (11, 11)) cv.subpixMove
        (mkRat 1 10) 30 p).2.2 = false →
      (refineLoop (cv.subpixStep gray (11, 11)) cv.subpixMove
        (mkRat 1 10) 30 p).2.1 = 30) ∧
    (∀ p, (refineLoop (cv.subpixStep gray (11, 11)) cv.subpixMove
        (mkRat 1 10) 30 p).2.2 = true →
      ∃ r, cv.subpixMove r (cv.subpixStep gray (11, 11) r) < mkRat 1 10 ∧
        (refineLoop (cv.subpixStep gray (11, 11)) cv.subpixMove
          (mkRat 1 10) 30 p).1 = cv.subpixStep gray (11, 11) r) := by
  refine ⟨by simp [cornerSubPix], ?_, ?_, ?_, ?_⟩
  · intro k
    simp [cornerSubPix, subpixCriteria, List.get?_map]
  · intro p
    exact refineLoop_iters_le _ _ _ 30 p
  · intro p h
    exact refineLoop_iters_of_not_eps _ _ _ 30 p h
  · intro p h
    exact refineLoop_eps_stop _ _ _ 30 p h

/-- C8 witness: on the concrete oracle the single corner is refined with
the same count, and its loop stopped at a movement below the 0.1
threshold. -/
theorem cornerSubPix_criteria_spec_witness :
    (cornerSubPix cvTest imgA [((1 : ℚ), (1 : ℚ))] (11, 11)
      subpixCriteria).length = [((1 : ℚ), (1 : ℚ))].length ∧
    (∃ r, cvTest.subpixMove r (cvTest.subpixStep imgA (11, 11) r) <
        mkRat 1 10 ∧
      (refineLoop (cvTest.subpixStep imgA (11, 11)) cvTest.subpixMove
        (mkRat 1 10) 30 ((1 : ℚ), (1 : ℚ))).1 =
        cvTest.subpixStep imgA (11, 11) r) :=
  ⟨(cornerSubPix_criteria_spec cvTest imgA [((1 : ℚ), (1 : ℚ))]).1,
   (cornerSubPix_criteria_spec cvTest imgA [((1 : ℚ), (1 : ℚ))]).2.2.2.2
     ((1 : ℚ), (1 : ℚ)) (by decide)⟩

theorem decodeMat_encodeMat_nil (mt : Mat) :
    decodeMat (encodeMat mt) = some (mt, []) := by
  simpa using decodeMat_encodeMat mt []

/-- C9: the persistence round-trip `load(save(model))` reproduces a model
whose `K`, `D`, and grid geometry `(nx, ny)` are identical to the
original's. -/
theorem save_load_roundtrip (m : FishEye) :
    ∃ m2, FishEye.load (FishEye.save m) = some m2 ∧
      m2.K = m.K ∧ m2.D = m.D ∧ m2.nx = m.nx ∧ m2.ny = m.ny := by
  refine ⟨m, ?_, rfl, rfl, rfl, rfl⟩
  obtain ⟨nx, ny, v, K, D⟩ := m
  simp only [FishEye.save, FishEye.load, decodeNat_natCast,
    decodeBool_encode, decodeMat_encodeMat, decodeMat_encodeMat_nil]

theorem calibScan_last_gray (cv : CV) (nx ny : Nat) (f : String)
    (img : Image) (hread : cv.imread f = some img) :
    ∀ (fs : List String) (acc : List (List Pt2) × Option Image)
      (pts : List (List Pt2)) (g : Option Image),
    calibScan cv nx ny (fs ++ [f]) acc = .ok (pts, g) →
    g = some (cv.cvtColor img) := by
  intro fs
  induction fs with
  | nil =>
    intro acc pts g h
    simp only [List.nil_append, calibScan, hread] at h
    cases hfc : cv.findChessboardCorners (cv.cvtColor img) (nx, ny)
        findChessboardFlags with
    | some cb =>
      rw [hfc] at h
      simp only [calibScan, Except.ok.injEq, Prod.mk.injEq] at h
      exact h.2.symm
    | none =>
      rw [hfc] at h
      simp only [calibScan, Except.ok.injEq, Prod.mk.injEq] at h
      exact h.2.symm
  | cons x xs ih =>
    intro acc pts g h
    rw [List.cons_append] at h
    cases hr : cv.imread x with
    | none => simp [calibScan, hr] at h
    | some im2 =>
      cases hfc : cv.findChessboardCorners (cv.cvtColor im2) (nx, ny)
          findChessboardFlags with
      | some cb =>
        simp only [calibScan, hr, hfc] at h
        exact ih _ _ _ h
      | none =>
        simp only [calibScan, hr, hfc] at h
        exact ih _ _ _ h

/-- C10: with a non-empty image list, the loop-local `gray` ends as the
grayscale conversion of the last image read — detection success on it
immaterial — and the image-size argument handed to the optimizer is that
image's reversed pixel shape `(cols, rows)`; nothing constrains the other
images' dimensions. -/
theorem calibrate_image_size_from_last (cv : CV) (m : FishEye)
    (fs : List String) (f : String) (img : Image) (um : Bool) (mi : Nat)
    (e : ℚ) (pts : List (List Pt2)) (g : Option Image)
    (hread : cv.imread f = some img)
    (hscan : calibScan cv m.nx m.ny (fs ++ [f]) ([], none) = .ok (pts, g)) :
    g = some (cv.cvtColor img) ∧
    (cv.cvtColor img).revShape =
      ((cv.cvtColor img).shape.2, (cv.cvtColor img).shape.1) ∧
    (∀ res m2, FishEye.calibrate cv m (fs ++ [f]) um mi e = .ok (res, m2) →
      ∃ r, cv.fisheyeCalib (calibObjPoints m.nx m.ny pts.length) pts
        ((cv.cvtColor img).cols, (cv.cvtColor img).rows) m.K m.D
        (zeroPoses pts.length) (zeroPoses pts.length) fisheyeCalibFlags
        (termCriteriaEpsMaxIter, mi, e) = .ok r ∧
        res = (r.1, r.2.1, r.2.2.1, zeroPoses pts.length,
          zeroPoses pts.length)) := by
  have hg : g = some (cv.cvtColor img) :=
    calibScan_last_gray cv m.nx m.ny f img hread fs ([], none) pts g hscan
  refine ⟨hg, rfl, ?_⟩
  intro res m2 h
  obtain ⟨pts2, gray2, r, h1, h2, hres, _⟩ :=
    calibrate_ok_inv cv m (fs ++ [f]) um mi e res m2 h
  rw [hscan, hg] at h1
  simp only [Except.ok.injEq, Prod.mk.injEq, Option.some.injEq] at h1
  obtain ⟨hpts, hgray⟩ := h1
  subst hpts
  subst hgray
  exact ⟨r, by simpa [Image.revShape] using h2, hres⟩

/-- C10 witness: on the concrete run, the last image read determines the
`gray` handed on, and the optimizer receives its reversed shape. -/
theorem calibrate_image_size_from_last_witness :
    (some imgA : Option Image) = some (cvTest.cvtColor imgA) ∧
    (∃ r, cvTest.fisheyeCalib
      (calibObjPoints mTest.nx mTest.ny [[((1 : ℚ), (1 : ℚ))]].length)
      [[((1 : ℚ), (1 : ℚ))]]
      ((cvTest.cvtColor imgA).cols, (cvTest.cvtColor imgA).rows)
      mTest.K mTest.D (zeroPoses [[((1 : ℚ), (1 : ℚ))]].length)
      (zeroPoses [[((1 : ℚ), (1 : ℚ))]].length) fisheyeCalibFlags
      (termCriteriaEpsMaxIter, 30, mkRat 1 1000000) = .ok r ∧
      resTest = (r.1, r.2.1, r.2.2.1,
        zeroPoses [[((1 : ℚ), (1 : ℚ))]].length,
        zeroPoses [[((1 : ℚ), (1 : ℚ))]].length)) :=
  ⟨(calibrate_image_size_from_last cvTest mTest [] "a" imgA true 30
      (mkRat 1 1000000) [[((1 : ℚ), (1 : ℚ))]] (some imgA) rfl rfl).1,
   (calibrate_image_size_from_last cvTest mTest [] "a" imgA true 30
      (mkRat 1 1000000) [[((1 : ℚ), (1 : ℚ))]] (some imgA) rfl rfl).2.2
     resTest mTest rfl⟩

end Fisheye
